import Mathlib

/-!
Verification of the hh-cv-updater client (src/hh_updater/core.py and
src/hh_updater/__main__.py) against its specification.

The network is modelled as an oracle `World` fixing, for one run, the
`_xsrf` cookie returned by the login page, the status code observed for
the login POST, and the status code observed for each resume-touch POST
(statuses are the ones the code reads from the `httpx` response object,
i.e. after any transport-level redirect handling).  Every operation of
`HHUpdater` is embedded as a pure function from the oracle and the
session state to its result, the successor state and the list of network
events it issued, so that claims about request counts and ordering are
statable.
-/

/-- One network request issued by the client, tagged by call site, together
with the part of the response the code inspects. -/
inductive NetEvent where
  /-- `GET {base_url}/account/login?backurl=%2F` in `get_xsrf`; `cookie` is the
  value of the `_xsrf` cookie of the response, if present. -/
  | getLoginPage (url : String) (cookie : Option String)
  /-- the form-encoded `POST` to the login endpoint in `auth`; `status` is the
  observed response status. -/
  | loginPost (url : String) (data : List (String × String)) (status : Nat)
  /-- the form-encoded `POST` to the touch endpoint in `update_cv`. -/
  | touchPost (url : String) (data : List (String × String))
      (headers : List (String × String)) (status : Nat)
deriving DecidableEq, Repr

/-- The network oracle for one run. -/
structure World where
  /-- the `_xsrf` cookie the login page sets, `none` when the cookie is absent. -/
  xsrfCookie : Option String
  /-- status code observed for the login POST. -/
  loginStatus : Nat
  /-- status code observed for the touch POST, per resume id. -/
  touchStatus : String → Nat

/-- The mutable state of `HHUpdater` (its `__slots__` minus the raw
connection handle): `base_url` and the cached `xsrf` token.
`xsrf = none` models Python `None`. -/
structure Session where
  base_url : String
  xsrf : Option String
deriving DecidableEq, Repr

/-- Python truthiness of an `Optional[str]`: `None` and the empty string are
falsy, everything else truthy (`if not self.xsrf`). -/
def truthy : Option String → Bool
  | none => false
  | some s => !s.isEmpty

/-- Python `x or ''` on an `Optional[str]`: the value when truthy, else `''`
(when the value is the empty string the result is that same empty string). -/
def pyOrEmpty : Option String → String
  | none => ""
  | some t => if t.isEmpty then "" else t

/-- Python `s[:n]`: the first `n` characters of `s` (all of `s` when shorter). -/
def pySliceTo (s : String) (n : Nat) : String :=
  String.mk (s.data.take n)

/-- Python `s.rstrip('/')`: remove every trailing `'/'`
(`List.rdropWhile p l` is `(l.reverse.dropWhile p).reverse`). -/
def rstripSlash (s : String) : String :=
  String.mk (s.data.rdropWhile (fun c => c == '/'))

/-- `HHUpdater.__init__`: stores `base_url.rstrip('/')` and no token. -/
def HHUpdater.init (base_url : String) : Session :=
  { base_url := rstripSlash base_url, xsrf := none }

/-- `HHUpdater.get_xsrf`: GET the login page, cache the `_xsrf` cookie of the
response (possibly `None`) as the session token, and return it. -/
def get_xsrf (env : World) (s : Session) :
    Option String × Session × List NetEvent :=
  let url := s.base_url ++ "/account/login?backurl=%2F"
  (env.xsrfCookie, { s with xsrf := env.xsrfCookie },
    [NetEvent.getLoginPage url env.xsrfCookie])

/-- `HHUpdater.auth`: when the cached token is falsy, first run `get_xsrf`;
then POST the login form (`username`, `password`, `backUrl`, `_xsrf`,
`action`) and return whether the observed status is exactly 200. -/
def auth (env : World) (s : Session) (login password : String) :
    Bool × Session × List NetEvent :=
  let (s1, fetchEvents) :=
    if truthy s.xsrf then (s, ([] : List NetEvent))
    else
      let (_, s2, ev) := get_xsrf env s
      (s2, ev)
  let data : List (String × String) :=
    [ ("username", login),
      ("password", password),
      ("backUrl", s1.base_url ++ "/"),
      ("_xsrf", pyOrEmpty s1.xsrf),
      ("action", "Войти") ]
  let url := s1.base_url ++ "/account/login?backurl=%2F"
  (env.loginStatus == 200, s1,
    fetchEvents ++ [NetEvent.loginPost url data env.loginStatus])

/-- `HHUpdater.update_cv`: return `False` at once when the cached token is
falsy; otherwise POST the touch form with the token repeated in the
`X-Xsrftoken` header and return whether the observed status is exactly 200.
In the POST branch the token is truthy, so `pyOrEmpty s.xsrf` is exactly
the cached string `self.xsrf`. -/
def update_cv (env : World) (s : Session) (cv_id : String) :
    Bool × Session × List NetEvent :=
  if truthy s.xsrf then
    let headers : List (String × String) :=
      [ ("X-Xsrftoken", pyOrEmpty s.xsrf),
        ("X-Requested-With", "XMLHttpRequest"),
        ("Referer", s.base_url ++ "/applicant/resumes/" ++ cv_id) ]
    let data : List (String × String) :=
      [ ("resume", cv_id), ("undirectable", "true") ]
    let url := s.base_url ++ "/applicant/resumes/touch"
    (env.touchStatus cv_id == 200, s,
      [NetEvent.touchPost url data headers (env.touchStatus cv_id)])
  else
    (false, s, [])

/-- Outcome of one `update` command run: process exit code, the aggregate
`success_count`, the resume ids for which `update_cv` was called (in call
order), and the network events of the whole run. -/
structure RunResult where
  exitCode : Nat
  successCount : Nat
  attempted : List String
  events : List NetEvent
deriving DecidableEq, Repr

/-- The per-resume loop of the `update` command: call `update_cv` for each id
in input order, counting successes and accumulating events. -/
def updateLoop (env : World) (s : Session) :
    List String → Nat × List String × List NetEvent
  | [] => (0, [], [])
  | cv_id :: rest =>
      let (ok, s1, ev) := update_cv env s cv_id
      let (n, att, evs) := updateLoop env s1 rest
      ((if ok then 1 else 0) + n, cv_id :: att, ev ++ evs)

/-- The `update` CLI command: build the session, authenticate, on failure exit
with code 1 touching nothing; on success run the loop and exit with code 1
iff `success_count < len(cv_ids)`, else 0. -/
def update (env : World) (base_url login password : String)
    (cv_ids : List String) : RunResult :=
  let s := HHUpdater.init base_url
  let (authSuccess, s1, authEvents) := auth env s login password
  if authSuccess then
    let (n, att, evs) := updateLoop env s1 cv_ids
    { exitCode := if n < cv_ids.length then 1 else 0,
      successCount := n, attempted := att, events := authEvents ++ evs }
  else
    { exitCode := 1, successCount := 0, attempted := [], events := authEvents }

/-- Outcome of one `check` command run: exit code, the `xsrf[:10]` substring
interpolated into the success message (`none` on the failure path), and the
network events. -/
structure CheckResult where
  exitCode : Nat
  shown : Option String
  events : List NetEvent
deriving DecidableEq, Repr

/-- The `check` CLI command: build the session, run `get_xsrf`; when the token
is truthy report success showing `xsrf[:10]`, else exit with code 1. -/
def check (env : World) (base_url : String) : CheckResult :=
  let s := HHUpdater.init base_url
  let (xsrf, _, ev) := get_xsrf env s
  if truthy xsrf then
    { exitCode := 0, shown := some (pySliceTo (pyOrEmpty xsrf) 10), events := ev }
  else
    { exitCode := 1, shown := none, events := ev }

/-- Is the event a token fetch (GET of the login page)? -/
def isFetchEvent : NetEvent → Bool
  | NetEvent.getLoginPage _ _ => true
  | _ => false

/-- Is the event a touch POST? -/
def isTouchEvent : NetEvent → Bool
  | NetEvent.touchPost _ _ _ _ => true
  | _ => false

/-- Is the event a touch POST whose observed status is exactly 200? -/
def isTouch200 : NetEvent → Bool
  | NetEvent.touchPost _ _ _ st => st == 200
  | _ => false

/-! ### Session-client theorems -/

/-- C1: `authenticate(login, password)` returns `true` iff the status the
client observes for the login POST is exactly 200; any other observed status
(a redirect such as 302 left unfollowed by the transport, or any 4xx/5xx)
makes it return `false`. -/
theorem auth_true_iff_status_200 (env : World) (s : Session) (l p : String) :
    (auth env s l p).1 = true ↔ env.loginStatus = 200 := by
  simp [auth]

/-- C2: with no CSRF token cached, `update_cv` returns `false` immediately,
leaves the session unchanged and issues zero network requests. -/
theorem update_cv_no_token (env : World) (s : Session) (cv_id : String)
    (h : s.xsrf = none) :
    update_cv env s cv_id = (false, s, []) := by
  simp [update_cv, truthy, h]

/-- Witness for C2 at a concrete session. -/
theorem update_cv_no_token_witness :
    update_cv ⟨some "tok", 200, fun _ => 200⟩ ⟨"https://hh.ru", none⟩ "cv1"
      = (false, ⟨"https://hh.ru", none⟩, []) :=
  update_cv_no_token ⟨some "tok", 200, fun _ => 200⟩ ⟨"https://hh.ru", none⟩ "cv1" rfl

/-- C3: with no cached token, `auth` issues exactly one token fetch (the GET
of the login page) and it precedes the login POST; with a (truthy) cached
token, the login POST is the only request. -/
theorem auth_fetch_discipline (env : World) (s : Session) (l p : String) :
    (s.xsrf = none →
      (auth env s l p).2.2 =
        [NetEvent.getLoginPage (s.base_url ++ "/account/login?backurl=%2F")
           env.xsrfCookie,
         NetEvent.loginPost (s.base_url ++ "/account/login?backurl=%2F")
           [("username", l), ("password", p), ("backUrl", s.base_url ++ "/"),
            ("_xsrf", pyOrEmpty env.xsrfCookie), ("action", "Войти")]
           env.loginStatus]) ∧
    (truthy s.xsrf = true →
      (auth env s l p).2.2 =
        [NetEvent.loginPost (s.base_url ++ "/account/login?backurl=%2F")
           [("username", l), ("password", p), ("backUrl", s.base_url ++ "/"),
            ("_xsrf", pyOrEmpty s.xsrf), ("action", "Войти")]
           env.loginStatus]) := by
  constructor
  · intro h
    simp [auth, get_xsrf, truthy, h]
  · intro h
    simp [auth, h]

/-- Witness for C3: both branches instantiated at concrete sessions. -/
theorem auth_fetch_discipline_witness :
    ((auth ⟨some "t", 200, fun _ => 200⟩ ⟨"https://hh.ru", none⟩ "u" "pw").2.2 =
      [NetEvent.getLoginPage "https://hh.ru/account/login?backurl=%2F" (some "t"),
       NetEvent.loginPost "https://hh.ru/account/login?backurl=%2F"
         [("username", "u"), ("password", "pw"), ("backUrl", "https://hh.ru/"),
          ("_xsrf", "t"), ("action", "Войти")] 200]) ∧
    ((auth ⟨some "t", 200, fun _ => 200⟩ ⟨"https://hh.ru", some "cached"⟩ "u" "pw").2.2 =
      [NetEvent.loginPost "https://hh.ru/account/login?backurl=%2F"
         [("username", "u"), ("password", "pw"), ("backUrl", "https://hh.ru/"),
          ("_xsrf", "cached"), ("action", "Войти")] 200]) := by
  constructor
  · exact ((auth_fetch_discipline ⟨some "t", 200, fun _ => 200⟩
      ⟨"https://hh.ru", none⟩ "u" "pw").1 rfl).trans (by decide)
  · exact ((auth_fetch_discipline ⟨some "t", 200, fun _ => 200⟩
      ⟨"https://hh.ru", some "cached"⟩ "u" "pw").2 (by decide)).trans
      (by decide)

/-- C7: when a truthy token is already cached, `auth` leaves the whole session
state (token and base_url) unchanged, whatever token the server offers. -/
theorem auth_preserves_session (env : World) (s : Session) (l p : String)
    (h : truthy s.xsrf = true) :
    (auth env s l p).2.1 = s := by
  simp [auth, h]

/-- Witness for C7 at a concrete session, with the oracle offering a rotated
token distinct from the cached one. -/
theorem auth_preserves_session_witness :
    (auth ⟨some "rotated", 200, fun _ => 200⟩ ⟨"https://hh.ru", some "cached"⟩
      "u" "pw").2.1 = ⟨"https://hh.ru", some "cached"⟩ :=
  auth_preserves_session ⟨some "rotated", 200, fun _ => 200⟩
    ⟨"https://hh.ru", some "cached"⟩ "u" "pw" (by decide)

/-- C9: a cached empty-string token behaves exactly like an absent one:
`auth` returns the very same result (in particular it starts with the
implicit token fetch), and `update_cv` returns `false` with no request. -/
theorem empty_token_treated_as_absent (env : World) (b l p cv : String) :
    auth env ⟨b, some ""⟩ l p = auth env ⟨b, none⟩ l p ∧
    (auth env ⟨b, some ""⟩ l p).2.2.head? =
      some (NetEvent.getLoginPage (b ++ "/account/login?backurl=%2F")
        env.xsrfCookie) ∧
    update_cv env ⟨b, some ""⟩ cv = (false, ⟨b, some ""⟩, []) := by
  refine ⟨rfl, ?_, ?_⟩
  · have h : "".isEmpty = true := rfl
    simp [auth, get_xsrf, truthy, h]
  · rfl

/-- C10: when the login page sets no `_xsrf` cookie, `auth` does not fail
early: it still sends the login POST with an empty `_xsrf` form field, and
its result is determined solely by the observed status of that POST. -/
theorem auth_posts_with_empty_token (env : World) (s : Session) (l p : String)
    (hc : env.xsrfCookie = none) (hs : s.xsrf = none) :
    (auth env s l p).2.2 =
      [NetEvent.getLoginPage (s.base_url ++ "/account/login?backurl=%2F") none,
       NetEvent.loginPost (s.base_url ++ "/account/login?backurl=%2F")
         [("username", l), ("password", p), ("backUrl", s.base_url ++ "/"),
          ("_xsrf", ""), ("action", "Войти")] env.loginStatus] ∧
    ((auth env s l p).1 = true ↔ env.loginStatus = 200) := by
  constructor
  · simp [auth, get_xsrf, truthy, hs, hc, pyOrEmpty]
  · simp [auth]

/-- Witness for C10 at a concrete cookie-less oracle. -/
theorem auth_posts_with_empty_token_witness :
    ((auth ⟨none, 403, fun _ => 200⟩ ⟨"https://hh.ru", none⟩ "u" "pw").2.2 =
      [NetEvent.getLoginPage "https://hh.ru/account/login?backurl=%2F" none,
       NetEvent.loginPost "https://hh.ru/account/login?backurl=%2F"
         [("username", "u"), ("password", "pw"), ("backUrl", "https://hh.ru/"),
          ("_xsrf", ""), ("action", "Войти")] 403]) ∧
    ((auth ⟨none, 403, fun _ => 200⟩ ⟨"https://hh.ru", none⟩ "u" "pw").1 = true ↔
      (403 : Nat) = 200) :=
  auth_posts_with_empty_token ⟨none, 403, fun _ => 200⟩ ⟨"https://hh.ru", none⟩
    "u" "pw" rfl rfl

/-! ### Sequencer helper lemmas -/

/-- `update_cv` never mutates the session. -/
theorem update_cv_state (env : World) (s : Session) (cv_id : String) :
    (update_cv env s cv_id).2.1 = s := by
  unfold update_cv
  split <;> rfl

/-- One unfolding step of the per-resume loop, with the invariant that the
session passed to the tail is unchanged. -/
theorem updateLoop_cons (env : World) (s : Session) (cv_id : String)
    (rest : List String) :
    updateLoop env s (cv_id :: rest) =
      ((if (update_cv env s cv_id).1 then 1 else 0) + (updateLoop env s rest).1,
       cv_id :: (updateLoop env s rest).2.1,
       (update_cv env s cv_id).2.2 ++ (updateLoop env s rest).2.2) := by
  have hst := update_cv_state env s cv_id
  rcases hu : update_cv env s cv_id with ⟨ok, s1, ev⟩
  rw [hu] at hst
  cases hst
  conv_lhs => unfold updateLoop
  rw [hu]

/-- The events of `auth` contain no touch POST at all. -/
theorem auth_events_no_touch (env : World) (s : Session) (l p : String) :
    (auth env s l p).2.2.filter isTouch200 = [] ∧
    (auth env s l p).2.2.filter isTouchEvent = [] := by
  unfold auth get_xsrf
  by_cases ht : truthy s.xsrf <;> simp [ht, isTouch200, isTouchEvent]

/-- `update` written with explicit projections in place of the tuple `let`s. -/
theorem update_unfold (env : World) (b l p : String) (ids : List String) :
    update env b l p ids =
      if (auth env (HHUpdater.init b) l p).1 then
        { exitCode :=
            if (updateLoop env (auth env (HHUpdater.init b) l p).2.1 ids).1 <
                ids.length then 1 else 0,
          successCount := (updateLoop env (auth env (HHUpdater.init b) l p).2.1 ids).1,
          attempted := (updateLoop env (auth env (HHUpdater.init b) l p).2.1 ids).2.1,
          events := (auth env (HHUpdater.init b) l p).2.2 ++
            (updateLoop env (auth env (HHUpdater.init b) l p).2.1 ids).2.2 }
      else
        { exitCode := 1, successCount := 0, attempted := [],
          events := (auth env (HHUpdater.init b) l p).2.2 } := rfl

/-- Loop invariant: every id is attempted in input order, the success count is
the number of touch POSTs that came back 200, and it is bounded by the number
of ids. -/
theorem updateLoop_spec (env : World) (ids : List String) :
    ∀ s : Session,
      (updateLoop env s ids).2.1 = ids ∧
      (updateLoop env s ids).1 =
        ((updateLoop env s ids).2.2.filter isTouch200).length ∧
      (updateLoop env s ids).1 ≤ ids.length := by
  induction ids with
  | nil => intro s; exact ⟨rfl, rfl, Nat.le_refl 0⟩
  | cons cv_id rest ih =>
      intro s
      obtain ⟨h1, h2, h3⟩ := ih s
      rw [updateLoop_cons]
      refine ⟨by rw [h1], ?_, ?_⟩
      · by_cases ht : truthy s.xsrf
        · by_cases hst : env.touchStatus cv_id == 200 <;>
            simp [update_cv, ht, hst, isTouch200, h2, Nat.add_comm]
        · simp [update_cv, ht, h2]
      · have hone : (if (update_cv env s cv_id).1 then 1 else 0) ≤ 1 := by
          split <;> omega
        simp only [List.length_cons]
        calc (if (update_cv env s cv_id).1 then 1 else 0) + (updateLoop env s rest).1
            ≤ 1 + rest.length := Nat.add_le_add hone h3
          _ = rest.length + 1 := Nat.add_comm 1 _

/-- `l.rdropWhile p ++ l.rtakeWhile p` recovers `l`. -/
theorem rdropWhile_append_rtakeWhile {α : Type} (p : α → Bool) (l : List α) :
    l.rdropWhile p ++ l.rtakeWhile p = l := by
  rw [List.rdropWhile, List.rtakeWhile, ← List.reverse_append,
    List.takeWhile_append_dropWhile, List.reverse_reverse]

/-! ### Sequencer theorems -/

/-- C4: when authentication fails, the `update` run exits with status 1,
`update_cv` is called for no resume id, and no touch request appears among
the run's network events. -/
theorem update_auth_failure (env : World) (b l p : String) (ids : List String)
    (h : env.loginStatus ≠ 200) :
    (update env b l p ids).exitCode = 1 ∧
    (update env b l p ids).attempted = [] ∧
    (update env b l p ids).events.filter isTouchEvent = [] := by
  have hb : (auth env (HHUpdater.init b) l p).1 = false := by
    have hfst : (auth env (HHUpdater.init b) l p).1 = (env.loginStatus == 200) :=
      rfl
    rw [hfst]
    exact beq_eq_false_iff_ne.mpr h
  rw [update_unfold, hb]
  exact ⟨rfl, rfl, (auth_events_no_touch env (HHUpdater.init b) l p).2⟩

/-- Witness for C4 with the login endpoint answering 302. -/
theorem update_auth_failure_witness :
    (update ⟨some "t", 302, fun _ => 200⟩ "https://hh.ru" "u" "pw"
      ["cv1", "cv2"]).exitCode = 1 ∧
    (update ⟨some "t", 302, fun _ => 200⟩ "https://hh.ru" "u" "pw"
      ["cv1", "cv2"]).attempted = [] ∧
    (update ⟨some "t", 302, fun _ => 200⟩ "https://hh.ru" "u" "pw"
      ["cv1", "cv2"]).events.filter isTouchEvent = [] :=
  update_auth_failure ⟨some "t", 302, fun _ => 200⟩ "https://hh.ru" "u" "pw"
    ["cv1", "cv2"] (by decide)

/-- C5: after a successful authentication, every resume id is attempted in
input order regardless of earlier failures, the aggregate success count is the
number of touch POSTs of the run that returned status exactly 200, and the
exit status is 0 iff that count equals the number of ids. -/
theorem update_batch_aggregation (env : World) (b l p : String)
    (ids : List String) (h : env.loginStatus = 200) :
    (update env b l p ids).attempted = ids ∧
    (update env b l p ids).successCount =
      ((update env b l p ids).events.filter isTouch200).length ∧
    ((update env b l p ids).exitCode = 0 ↔
      (update env b l p ids).successCount = ids.length) := by
  have hb : (auth env (HHUpdater.init b) l p).1 = true := by
    have hfst : (auth env (HHUpdater.init b) l p).1 = (env.loginStatus == 200) :=
      rfl
    rw [hfst, h]
    rfl
  obtain ⟨h1, h2, h3⟩ :=
    updateLoop_spec env ids (auth env (HHUpdater.init b) l p).2.1
  rw [update_unfold, hb]
  refine ⟨h1, ?_, ?_⟩
  · show (updateLoop env (auth env (HHUpdater.init b) l p).2.1 ids).1 =
      (((auth env (HHUpdater.init b) l p).2.2 ++
        (updateLoop env (auth env (HHUpdater.init b) l p).2.1 ids).2.2).filter
          isTouch200).length
    rw [List.filter_append, (auth_events_no_touch env (HHUpdater.init b) l p).1,
      List.nil_append]
    exact h2
  · show (if (updateLoop env (auth env (HHUpdater.init b) l p).2.1 ids).1 <
        ids.length then 1 else 0) = 0 ↔
      (updateLoop env (auth env (HHUpdater.init b) l p).2.1 ids).1 = ids.length
    constructor
    · intro h0
      by_contra hne
      have hlt :
          (updateLoop env (auth env (HHUpdater.init b) l p).2.1 ids).1 <
            ids.length := lt_of_le_of_ne h3 hne
      rw [if_pos hlt] at h0
      exact absurd h0 one_ne_zero
    · intro heq
      have hnlt :
          ¬ (updateLoop env (auth env (HHUpdater.init b) l p).2.1 ids).1 <
            ids.length := by omega
      rw [if_neg hnlt]

/-- Witness for C5: three ids, the touch endpoint scripted to fail on `"c"`. -/
theorem update_batch_aggregation_witness :
    (update ⟨some "t", 200, fun cv => if cv = "c" then 403 else 200⟩
      "https://hh.ru" "u" "pw" ["a", "b", "c"]).attempted = ["a", "b", "c"] ∧
    (update ⟨some "t", 200, fun cv => if cv = "c" then 403 else 200⟩
      "https://hh.ru" "u" "pw" ["a", "b", "c"]).successCount =
      ((update ⟨some "t", 200, fun cv => if cv = "c" then 403 else 200⟩
        "https://hh.ru" "u" "pw" ["a", "b", "c"]).events.filter
          isTouch200).length ∧
    ((update ⟨some "t", 200, fun cv => if cv = "c" then 403 else 200⟩
      "https://hh.ru" "u" "pw" ["a", "b", "c"]).exitCode = 0 ↔
      (update ⟨some "t", 200, fun cv => if cv = "c" then 403 else 200⟩
        "https://hh.ru" "u" "pw" ["a", "b", "c"]).successCount =
        (["a", "b", "c"] : List String).length) :=
  update_batch_aggregation ⟨some "t", 200, fun cv => if cv = "c" then 403 else 200⟩
    "https://hh.ru" "u" "pw" ["a", "b", "c"] rfl

/-- C6: the constructor stores the base URL with all trailing slashes removed
(the input is the stored value followed by some run of `'/'`, and the stored
value does not end in `'/'`), the stripping is idempotent, and
`"https://hh.ru/"` is stored as `"https://hh.ru"`. -/
theorem init_strips_trailing_slashes (u : String) :
    (∃ k, u.data = (HHUpdater.init u).base_url.data ++ List.replicate k '/') ∧
    (HHUpdater.init u).base_url.data.getLast? ≠ some '/' ∧
    (HHUpdater.init ((HHUpdater.init u).base_url)).base_url =
      (HHUpdater.init u).base_url ∧
    (HHUpdater.init "https://hh.ru/").base_url = "https://hh.ru" := by
  refine ⟨⟨(u.data.rtakeWhile (fun c => c == '/')).length, ?_⟩, ?_, ?_, by decide⟩
  · have hrep : u.data.rtakeWhile (fun c => c == '/') =
        List.replicate (u.data.rtakeWhile (fun c => c == '/')).length '/' :=
      List.eq_replicate_length.mpr (fun b hb => by
        simpa using List.mem_rtakeWhile_imp hb)
    conv_lhs => rw [← rdropWhile_append_rtakeWhile (fun c => c == '/') u.data,
      hrep]
    rfl
  · intro hlast
    have hne : u.data.rdropWhile (fun c => c == '/') ≠ [] := by
      intro hnil
      rw [show (HHUpdater.init u).base_url.data =
        u.data.rdropWhile (fun c => c == '/') from rfl, hnil] at hlast
      exact Option.noConfusion hlast
    apply List.rdropWhile_last_not (fun c => c == '/') u.data hne
    have hsome : (u.data.rdropWhile (fun c => c == '/')).getLast? =
        some ((u.data.rdropWhile (fun c => c == '/')).getLast hne) :=
      List.getLast?_eq_getLast _ hne
    rw [show (HHUpdater.init u).base_url.data =
      u.data.rdropWhile (fun c => c == '/') from rfl, hsome] at hlast
    simp only [Option.some.injEq] at hlast
    simp [hlast]
  · exact congrArg String.mk
      (List.rdropWhile_idempotent (fun c => c == '/') u.data)

/-- C8 as stated is false: with a 3-character `_xsrf` cookie the probe
succeeds and the success message interpolates `xsrf[:10]`, which here is the
token in full, not a proper short prefix kept secret. -/
theorem check_shows_full_short_token :
    (check ⟨some "abc", 200, fun _ => 200⟩ "https://hh.ru").exitCode = 0 ∧
    (check ⟨some "abc", 200, fun _ => 200⟩ "https://hh.ru").shown = some "abc" ∧
    (World.mk (some "abc") 200 (fun _ => 200)).xsrfCookie = some "abc" := by
  refine ⟨by decide, by decide, rfl⟩

/-- C8 (amended): `check` exits with status 0 iff `get_xsrf` obtained a
non-empty token; on success the message shows `xsrf[:10]`, the first 10
characters of the token — a proper prefix (never the full value) whenever the
token has more than 10 characters; when the `_xsrf` cookie is absent it exits
with status 1 showing nothing (the embedding is a total function, so no
exception is raised on that path). -/
theorem check_flow_spec (env : World) (b : String) :
    ((check env b).exitCode = 0 ↔ truthy env.xsrfCookie = true) ∧
    ((check env b).shown =
      if truthy env.xsrfCookie then some (pySliceTo (pyOrEmpty env.xsrfCookie) 10)
      else none) ∧
    (∀ t, env.xsrfCookie = some t → 10 < t.data.length →
      (check env b).shown ≠ some t) ∧
    (env.xsrfCookie = none →
      (check env b).exitCode = 1 ∧ (check env b).shown = none) := by
  refine ⟨?_, ?_, ?_, ?_⟩
  · unfold check get_xsrf
    by_cases ht : truthy env.xsrfCookie <;> simp [ht]
  · unfold check get_xsrf
    by_cases ht : truthy env.xsrfCookie <;> simp [ht]
  · intro t hct hlen hshown
    have hsh : (check env b).shown =
        if truthy env.xsrfCookie then
          some (pySliceTo (pyOrEmpty env.xsrfCookie) 10)
        else none := by
      unfold check get_xsrf
      by_cases ht : truthy env.xsrfCookie <;> simp [ht]
    rw [hsh, hct] at hshown
    by_cases ht : truthy (some t)
    · rw [if_pos ht] at hshown
      have hdata : (pySliceTo (pyOrEmpty (some t)) 10).data = t.data :=
        congrArg String.data (Option.some.injEq _ _ ▸ hshown)
      have hne : t.isEmpty = false := by
        cases hie : t.isEmpty
        · rfl
        · exfalso
          simp [truthy, hie] at ht
      rw [show pyOrEmpty (some t) = t by simp [pyOrEmpty, hne]] at hdata
      have : (t.data.take 10).length = t.data.length :=
        congrArg List.length hdata
      rw [List.length_take] at this
      omega
    · rw [if_neg ht] at hshown
      exact Option.noConfusion hshown
  · intro hc
    unfold check get_xsrf
    simp [hc, truthy]

/-- Witness for C8's amended theorem: a 12-character token is never shown in
full, and an absent cookie gives exit status 1 with nothing shown. -/
theorem check_flow_spec_witness :
    ((check ⟨some "abcdefghijkl", 200, fun _ => 200⟩ "https://hh.ru").shown ≠
      some "abcdefghijkl") ∧
    ((check ⟨none, 200, fun _ => 200⟩ "https://hh.ru").exitCode = 1 ∧
      (check ⟨none, 200, fun _ => 200⟩ "https://hh.ru").shown = none) :=
  ⟨(check_flow_spec ⟨some "abcdefghijkl", 200, fun _ => 200⟩
      "https://hh.ru").2.2.1 "abcdefghijkl" rfl (by decide),
    (check_flow_spec ⟨none, 200, fun _ => 200⟩ "https://hh.ru").2.2.2 rfl⟩
